import Mathlib

/-!
Verification development for the middle-layer-api job orchestration core.

The repository is a Node.js service that tracks multi-segment "audit jobs"
in a BigQuery-backed job store.  We give a shallow embedding of the pure
computations (numeric coercion, completeness classification, overall-status
aggregation) and of the stateful handlers (the synchronous demographics
processor, the organic-search callback, the Pub/Sub dispatchers) as
explicit state-passing functions over a store modelled as finite maps
`String → Option row`.  Timestamp columns (`date`, `updatedAt`, `createdAt`
echoes) are outside the model: no claim depends on them.

Sources embedded here:
  - src/jobHelpers.js            (updateOverallStatus)
  - src/status.js                (recomputeAndUpdateMainStatus, markSegmentStatus)
  - src/index.js                 (updateOverallStatus, two-segment variant)
  - src/worker.js                (three concatenated drafts: the Pub/Sub
                                  dispatcher of draft 1 and draft 2, and
                                  safeUpdateJobDemographicsStatus of draft 2)
  - src/organicSearch.js         (handleOrganicResultCallback)
  - src/unnamed/part_007         (draft 3: processJobDemographics,
                                  processDemographicsStage, toNumberOrNull,
                                  maybeMarkJobCompleted, markSegmentStatus)
-/

/-! ## JavaScript value model

The demographics source row fields arrive from BigQuery as JS values:
numbers, strings, booleans, `null`, or `undefined` (absent column).
Strings are modelled by their behaviour under ECMAScript `ToNumber` and
`String.prototype.trim`: the empty string, a nonempty whitespace-only
string (`ToNumber` gives 0), a numeric literal (possibly padded with
whitespace; `ToNumber` gives its value), or any other nonempty string
(`ToNumber` gives NaN).  NaN numeric inputs are not modelled (BigQuery
never produces them for these columns). -/

inductive JSString where
  | empty
  | wsOnly
  | numeric (q : ℚ)
  | other
deriving DecidableEq, Repr

inductive JSValue where
  | null
  | undefined
  | num (q : ℚ)
  | str (s : JSString)
  | bool (b : Bool)
deriving DecidableEq, Repr

/-- ECMAScript StringToNumber: whitespace-only (and empty) strings give 0,
numeric literals give their value, everything else gives NaN (`none`). -/
def jsStringToNumber : JSString → Option ℚ
  | .empty => some 0
  | .wsOnly => some 0
  | .numeric q => some q
  | .other => none

/-- ECMAScript ToNumber on our value model; `none` stands for NaN. -/
def jsToNumber : JSValue → Option ℚ
  | .null => some 0
  | .undefined => none
  | .num q => some q
  | .str s => jsStringToNumber s
  | .bool b => some (if b then 1 else 0)

/-- Embedding of src/unnamed/part_007 lines 1443-1449 (same function at
src/worker.js lines 1323-1328):

  function toNumberOrNull(value) \x7b
    if (value === null || value === undefined || value === '') return null;
    const n = Number(value);
    if (Number.isNaN(n)) return null;
    return n;
  \x7d
-/
def toNumberOrNull (v : JSValue) : Option ℚ :=
  if v = .null ∨ v = .undefined ∨ v = .str .empty then none
  else match jsToNumber v with
    | none => none
    | some n => some n

/-- Claim-side notion used by C5: a value is numeric when it is a JS number
or a string holding a numeric literal. -/
def isNumericValue : JSValue → Bool
  | .num _ => true
  | .str (.numeric _) => true
  | _ => false

/-! ## Demographics metrics and the completeness classifier -/

/-- Row of the `1_demographics` reference source table (JS values as
returned by the BigQuery client). -/
structure DemoSourceRow where
  population_no : JSValue
  median_age : JSValue
  households_no : JSValue
  median_income_households : JSValue
  median_income_families : JSValue
  male_percentage : JSValue
  female_percentage : JSValue
deriving DecidableEq, Repr

/-- Fixed field set of the demographics SegmentResult after per-field
coercion (`parsed` in the source). -/
structure ParsedMetrics where
  population_no : Option ℚ
  median_age : Option ℚ
  households_no : Option ℚ
  median_income_households : Option ℚ
  median_income_families : Option ℚ
  male_percentage : Option ℚ
  female_percentage : Option ℚ
deriving DecidableEq, Repr

/-- Per-field coercion step of part_007 lines 1321-1329. -/
def parseMetrics (d : DemoSourceRow) : ParsedMetrics where
  population_no := toNumberOrNull d.population_no
  median_age := toNumberOrNull d.median_age
  households_no := toNumberOrNull d.households_no
  median_income_households := toNumberOrNull d.median_income_households
  median_income_families := toNumberOrNull d.median_income_families
  male_percentage := toNumberOrNull d.male_percentage
  female_percentage := toNumberOrNull d.female_percentage

/-- The `metricsArray` of part_007 lines 1331-1339. -/
def metricsList (p : ParsedMetrics) : List (Option ℚ) :=
  [p.population_no, p.median_age, p.households_no,
   p.median_income_households, p.median_income_families,
   p.male_percentage, p.female_percentage]

/-- Completeness classifier of part_007 lines 1341-1347 (same code at
src/worker.js lines 1205-1221):
all null ⇒ failed, all non-null ⇒ completed, otherwise partial. -/
def classifyMetrics (p : ParsedMetrics) : String :=
  if (metricsList p).all (fun v => v.isNone) then "failed"
  else if (metricsList p).all (fun v => v.isSome) then "completed"
  else "partial"

/-- Number of non-null fields, used to state C4. -/
def countSome (p : ParsedMetrics) : Nat :=
  (metricsList p).countP (fun v => v.isSome)

/-! ## Overall-status aggregation (pure computations) -/

/-- JS `segmentValue || 'queued'` (src/jobHelpers.js lines 106-110): both a
NULL column and an empty string are falsy and default to queued. -/
def orQueued : Option String → String
  | none => "queued"
  | some s => if s = "" then "queued" else s

/-- JS `value || null` used when destructuring job rows: empty strings
collapse to null. -/
def truthyOpt : Option String → Option String
  | none => none
  | some s => if s = "" then none else some s

/-- Pure computation of src/jobHelpers.js updateOverallStatus, lines
106-129: segments default to queued; precedence is allQueued, anyFailed,
anyPending, allCompleted, then a pending fallback. -/
def jobHelpersComputeOverall (demo org paid : Option String) : String :=
  if orQueued demo = "queued" ∧ orQueued org = "queued" ∧ orQueued paid = "queued" then
    "queued"
  else if orQueued demo = "failed" ∨ orQueued org = "failed" ∨ orQueued paid = "failed" then
    "failed"
  else if orQueued demo = "pending" ∨ orQueued org = "pending" ∨ orQueued paid = "pending" then
    "pending"
  else if orQueued demo = "completed" ∧ orQueued org = "completed" ∧ orQueued paid = "completed" then
    "completed"
  else "pending"

/-- Pure computation of src/status.js recomputeAndUpdateMainStatus, lines
50-68, applied to the list of segment statuses that survived the truthy
filter: allQueued, anyFailed, allCompleted, anyPending, pending fallback. -/
def statusJsComputeMain (segs : List String) : String :=
  if segs.all (fun s => s = "queued") then "queued"
  else if segs.any (fun s => s = "failed") then "failed"
  else if segs.all (fun s => s = "completed") then "completed"
  else if segs.any (fun s => s = "pending") then "pending"
  else "pending"

/-- SQL/JS falsy test on a nullable column (`!paidAdsStatus`). -/
def falsyStr (o : Option String) : Bool :=
  match o with
  | none => true
  | some s => s = ""

/-- Pure computation of src/index.js updateOverallStatus, lines 259-276
(two segments): anyFailed, then a demographics-driven completed rule, then
in_progress, defaulting to queued. -/
def indexComputeOverall (demo paid : Option String) : String :=
  if demo = some "failed" ∨ paid = some "failed" then "failed"
  else if (demo = some "completed" ∨ demo = some "no_data") ∧
          (falsyStr paid = true ∨ paid = some "queued") then "completed"
  else if demo = some "in_progress" ∨ paid = some "in_progress" ∨
          demo = some "queued" ∨ paid = some "queued" then "in_progress"
  else "queued"

/-- Values any embedded three-segment aggregator can produce. -/
def aggregatorCodomain : List String := ["queued", "failed", "pending", "completed"]

theorem jobHelpersComputeOverall_mem_codomain (d o p : Option String) :
    jobHelpersComputeOverall d o p ∈ aggregatorCodomain := by
  unfold jobHelpersComputeOverall aggregatorCodomain
  repeat' split
  all_goals simp

theorem statusJsComputeMain_mem_codomain (l : List String) :
    statusJsComputeMain l ∈ aggregatorCodomain := by
  unfold statusJsComputeMain aggregatorCodomain
  repeat' split
  all_goals simp

/-! ## Store model

Rows live in maps `String → Option row` keyed by jobId (or by location for
the reference source).  A SQL UPDATE touches an existing row and writes
nothing when no row matches; a MERGE upserts. -/

structure JobRow where
  businessName : Option String
  location : Option String
  services : Option String
  demographicsStatus : Option String
  paidAdsStatus : Option String
  organicSearchStatus : Option String
  status : Option String
deriving DecidableEq, Repr

/-- SegmentResult row of `1_demographicJobs` (timestamp column omitted). -/
structure DemoResultRow where
  businessName : Option String
  metrics : ParsedMetrics
  status : String
deriving DecidableEq, Repr

/-- SegmentResult row of `7_organicSearch_Jobs`: the twenty coerced rank
columns in order rank1Name, rank1Url, …, rank10Url, plus status. -/
structure OrganicResultRow where
  ranks : List String
  status : String
deriving DecidableEq, Repr

structure WorldState where
  jobs : String → Option JobRow
  demoSource : String → Option DemoSourceRow
  demoResults : String → Option DemoResultRow
  orgResults : String → Option OrganicResultRow

/-- Point update of a keyed map. -/
def updMap {α : Type} (f : String → Option α) (k : String) (v : Option α) :
    String → Option α :=
  fun x => if x = k then v else f x

theorem updMap_apply_eq {α : Type} (f : String → Option α) (k : String)
    (v : Option α) : updMap f k v k = v := by
  simp [updMap]

theorem updMap_apply_ne {α : Type} (f : String → Option α) (k x : String)
    (v : Option α) (h : x ≠ k) : updMap f k v x = f x := by
  simp [updMap, h]

theorem updMap_self {α : Type} (f : String → Option α) (k : String)
    (v : Option α) (h : f k = v) : updMap f k v = f := by
  funext x
  by_cases hx : x = k
  · subst hx; simp [updMap, h]
  · simp [updMap, hx]

/-! ## part_007 draft 3: demographics processor -/

/-- The markSegmentStatus of part_007 lines 1503-1537: an allow-listed
field map, then UPDATE of one segment-status column by jobId. -/
def part007MarkSegmentStatus (s : WorldState) (jid segmentField st : String) :
    WorldState :=
  if segmentField = "demographicsStatus" then
    match s.jobs jid with
    | none => s
    | some j =>
        { s with jobs := updMap s.jobs jid (some { j with demographicsStatus := some st }) }
  else if segmentField = "paidAdsStatus" then
    match s.jobs jid with
    | none => s
    | some j =>
        { s with jobs := updMap s.jobs jid (some { j with paidAdsStatus := some st }) }
  else if segmentField = "organicSearchStatus" then
    match s.jobs jid with
    | none => s
    | some j =>
        { s with jobs := updMap s.jobs jid (some { j with organicSearchStatus := some st }) }
  else s

/-- The maybeMarkJobCompleted of part_007 lines 1540-1596: defaults each
required segment to queued, requires every one done and completed, and
then writes overall status completed. -/
def maybeMarkJobCompleted (s : WorldState) (jid : String) : WorldState :=
  match s.jobs jid with
  | none => s
  | some j =>
      let statuses := [orQueued j.demographicsStatus, orQueued j.paidAdsStatus,
                       orQueued j.organicSearchStatus]
      let allDone := statuses.all
        (fun st => !(st == "") && !(st == "queued") && !(st == "pending"))
      let allCompleted := statuses.all (fun st => st == "completed")
      if !allDone || !allCompleted then s
      else { s with jobs := updMap s.jobs jid (some { j with status := some "completed" }) }

def nullMetrics : ParsedMetrics :=
  ⟨none, none, none, none, none, none, none⟩

/-- MERGE into `1_demographicJobs` (part_007 lines 1357-1414): insert or
update, writing the same field values either way. -/
def upsertDemoRow (s : WorldState) (jid : String) (businessName : Option String)
    (p : ParsedMetrics) (st : String) : WorldState :=
  { s with demoResults := updMap s.demoResults jid (some ⟨businessName, p, st⟩) }

/-- The overwriteJobsDemographicsRow of part_007 lines 1598-1671: the same
MERGE, with the status defaulting to failed when falsy. -/
def overwriteJobsDemographicsRow (s : WorldState) (jid : String)
    (businessName : Option String) (p : ParsedMetrics) (st : Option String) :
    WorldState :=
  upsertDemoRow s jid businessName p
    (match truthyOpt st with
     | none => "failed"
     | some x => x)

/-- JS chain `job.location || locationOverride || null`. -/
def firstTruthy (a b : Option String) : Option String :=
  match truthyOpt a with
  | some x => some x
  | none => truthyOpt b

/-- The processDemographicsStage of part_007 lines 1227-1437, on the job
row the caller loaded.  Control flow: idempotency guard on completed, then
the missing-location failure, the pending write, the reference lookup, the
no-data failure path, or coercion, classification, MERGE, segment-status
write, and maybeMarkJobCompleted.  The MERGE failure catch branch is not
modelled (no fault injection). -/
def processDemographicsStage (s : WorldState) (job : JobRow) (jid : String)
    (locationOverride : Option String) : WorldState :=
  if truthyOpt job.demographicsStatus = some "completed" then s
  else
    match firstTruthy job.location locationOverride with
    | none => part007MarkSegmentStatus s jid "demographicsStatus" "failed"
    | some loc =>
        let s1 := part007MarkSegmentStatus s jid "demographicsStatus" "pending"
        match s1.demoSource loc with
        | none =>
            let s2 := overwriteJobsDemographicsRow s1 jid (truthyOpt job.businessName)
              nullMetrics (some "failed")
            part007MarkSegmentStatus s2 jid "demographicsStatus" "failed"
        | some d =>
            let parsed := parseMetrics d
            let newDemoStatus := classifyMetrics parsed
            let s2 := upsertDemoRow s1 jid (truthyOpt job.businessName) parsed newDemoStatus
            let s3 := part007MarkSegmentStatus s2 jid "demographicsStatus" newDemoStatus
            maybeMarkJobCompleted s3 jid

/-- The processJobDemographics of part_007 lines 1208-1221: load the job
and hand it to the stage processor; absent job is a no-op. -/
def processJobDemographics (s : WorldState) (jid : String)
    (locationFromMessage : Option String) : WorldState :=
  match s.jobs jid with
  | none => s
  | some job => processDemographicsStage s job jid locationFromMessage

/-! ## Aggregator runs (with write counts) -/

/-- The updateOverallStatus of src/jobHelpers.js lines 84-150: compute the
new overall status and write it only when it differs from the stored
value.  The second component counts UPDATE statements issued. -/
def jobHelpersUpdateOverallStatus (s : WorldState) (jid : String) :
    WorldState × Nat :=
  match s.jobs jid with
  | none => (s, 0)
  | some j =>
      let newStatus := jobHelpersComputeOverall j.demographicsStatus
        j.organicSearchStatus j.paidAdsStatus
      if j.status = some newStatus then (s, 0)
      else ({ s with jobs := updMap s.jobs jid (some { j with status := some newStatus }) }, 1)

/-- Truthy filter of src/status.js line 41: drop NULL and empty statuses. -/
def truthyList (l : List (Option String)) : List String :=
  l.filterMap truthyOpt

/-- The recomputeAndUpdateMainStatus of src/status.js lines 17-87: load
the three segment columns, keep the truthy ones, return untouched when
none are set, otherwise compute the new status and write it
unconditionally (lines 76-84 have no comparison with the stored value).
The second component counts UPDATE statements issued. -/
def recomputeAndUpdateMainStatus (s : WorldState) (jid : String) :
    WorldState × Nat :=
  match s.jobs jid with
  | none => (s, 0)
  | some j =>
      let segs := truthyList [j.demographicsStatus, j.organicSearchStatus,
                              j.paidAdsStatus]
      if segs = [] then (s, 0)
      else
        ({ s with jobs :=
            updMap s.jobs jid (some { j with status := some (statusJsComputeMain segs) }) }, 1)

/-- The markSegmentStatus of src/status.js lines 97-131: allow-listed
column, UPDATE of that column, then recomputeAndUpdateMainStatus. -/
def statusJsMarkSegmentStatus (s : WorldState) (jid columnName newStatus : String) :
    WorldState :=
  if columnName = "1_demographics_Status" ∨ columnName = "7_organicSearch_Status" ∨
      columnName = "8_paidAds_Status" then
    let s1 :=
      match s.jobs jid with
      | none => s
      | some j =>
          if columnName = "1_demographics_Status" then
            { s with jobs := updMap s.jobs jid (some { j with demographicsStatus := some newStatus }) }
          else if columnName = "7_organicSearch_Status" then
            { s with jobs := updMap s.jobs jid (some { j with organicSearchStatus := some newStatus }) }
          else
            { s with jobs := updMap s.jobs jid (some { j with paidAdsStatus := some newStatus }) }
    (recomputeAndUpdateMainStatus s1 jid).1
  else s

/-! ## organicSearch.js: asynchronous segment callback (Phase B) -/

/-- One item of the /organic-result payload (src/organicSearch.js lines
142-166): a jobId and the twenty rank result fields, each a JSON string
or null/absent. -/
structure OrganicItem where
  jobId : Option String
  rank1Name : Option String
  rank1Url : Option String
  rank2Name : Option String
  rank2Url : Option String
  rank3Name : Option String
  rank3Url : Option String
  rank4Name : Option String
  rank4Url : Option String
  rank5Name : Option String
  rank5Url : Option String
  rank6Name : Option String
  rank6Url : Option String
  rank7Name : Option String
  rank7Url : Option String
  rank8Name : Option String
  rank8Url : Option String
  rank9Name : Option String
  rank9Url : Option String
  rank10Name : Option String
  rank10Url : Option String
deriving DecidableEq, Repr

/-- The `safe` helper of src/organicSearch.js lines 169-170: null and
undefined coerce to the empty string, a string stays itself. -/
def jsSafe (v : Option String) : String :=
  match v with
  | none => ""
  | some s => s

/-- The twenty `requiredFields` values in column order (lines 197-208). -/
def rankFields (it : OrganicItem) : List (Option String) :=
  [it.rank1Name, it.rank1Url, it.rank2Name, it.rank2Url,
   it.rank3Name, it.rank3Url, it.rank4Name, it.rank4Url,
   it.rank5Name, it.rank5Url, it.rank6Name, it.rank6Url,
   it.rank7Name, it.rank7Url, it.rank8Name, it.rank8Url,
   it.rank9Name, it.rank9Url, it.rank10Name, it.rank10Url]

/-- A field counts as filled when its coerced value trims to a nonempty
string (lines 210-213).  JS `safe(v).trim() !== ''` holds exactly when the
string contains a non-whitespace character, which is the form used here. -/
def rankFilled (v : Option String) : Bool :=
  (jsSafe v).data.any (fun c => !c.isWhitespace)

/-- The `allFilled` test of src/organicSearch.js lines 210-213. -/
def allRankFieldsFilled (it : OrganicItem) : Bool :=
  (rankFields it).all rankFilled

/-- Row written by the UPDATE of lines 222-254. -/
def orgRowOfItem (it : OrganicItem) (st : String) : OrganicResultRow :=
  ⟨(rankFields it).map jsSafe, st⟩

/-- UPDATE of `7_organicSearch_Jobs` by jobId: writes nothing when no row
matches (no insert). -/
def updateOrganicRow (s : WorldState) (jid : String) (it : OrganicItem)
    (st : String) : WorldState :=
  match s.orgResults jid with
  | none => s
  | some _ => { s with orgResults := updMap s.orgResults jid (some (orgRowOfItem it st)) }

/-- Per-item body of handleOrganicResultCallback (src/organicSearch.js
lines 142-262): skip items without a truthy jobId; for an unknown job mark
the segment failed (an UPDATE that matches no row) and continue; otherwise
classify the rank fields as completed when all are filled, else failed,
update the result row, and write the segment status through
status.js markSegmentStatus (which recomputes the main status). -/
def handleOrganicItem (s : WorldState) (it : OrganicItem) : WorldState :=
  match truthyOpt it.jobId with
  | none => s
  | some jid =>
      match s.jobs jid with
      | none => statusJsMarkSegmentStatus s jid "7_organicSearch_Status" "failed"
      | some _ =>
          let tableStatus := if allRankFieldsFilled it then "completed" else "failed"
          let s1 := updateOrganicRow s jid it tableStatus
          statusJsMarkSegmentStatus s1 jid "7_organicSearch_Status" tableStatus

/-- The item loop of handleOrganicResultCallback. -/
def processOrganicItems (s : WorldState) : List OrganicItem → WorldState
  | [] => s
  | it :: rest => processOrganicItems (handleOrganicItem s it) rest

/-- Claim-side refinement definition for C8, following the spec wording
(§4.3 Phase B step 4 with §4.2 step 7): apply the null/empty coercion to
the callback's result fields and classify three ways — zero non-null
fields means failed, all non-null means completed, otherwise partial. -/
def specCallbackClassification (fields : List (Option String)) : String :=
  if fields.all (fun v => (truthyOpt v).isNone) then "failed"
  else if fields.all (fun v => (truthyOpt v).isSome) then "completed"
  else "partial"

/-! ## worker.js draft 2: direct overall-status write -/

/-- Job row shape of worker.js draft 2 (columns demographicsStatus,
paidAdsStatus, status). -/
structure Draft2JobRow where
  demographicsStatus : Option String
  paidAdsStatus : Option String
  status : Option String
deriving DecidableEq, Repr

/-- The safeUpdateJobDemographicsStatus of src/worker.js lines 869-897:
one UPDATE sets the demographics segment column and the overall status
column together, via a SQL CASE — completed when the new segment status is
completed and paidAds is completed, needs_review when the new segment
status is no_location or no_data, otherwise the stored value. -/
def safeUpdateJobDemographicsStatus (j : Draft2JobRow)
    (newDemographicsStatus : String) : Draft2JobRow :=
  { demographicsStatus := some newDemographicsStatus
    paidAdsStatus := j.paidAdsStatus
    status :=
      if newDemographicsStatus = "completed" ∧ j.paidAdsStatus = some "completed" then
        some "completed"
      else if newDemographicsStatus = "no_location" ∨ newDemographicsStatus = "no_data" then
        some "needs_review"
      else j.status }

/-! ## The Pub/Sub dispatchers -/

structure PubsubPayload where
  jobId : Option String
  stage : Option String
deriving DecidableEq, Repr

/-- Outcome of the routed processor call: it returns, or it raises an
exception the processor did not convert to a status write. -/
inductive ProcOutcome where
  | ok
  | exn
deriving DecidableEq, Repr

/-- HTTP response code of the first Pub/Sub endpoint in src/worker.js
(lines 544-583): 400 for a malformed envelope or missing jobId/stage, 500
when JSON parsing or the routed processor throws (the catch block), 204
when the processor returns and for an unknown stage (logged no-op). -/
def pubsubDispatchV1 (formatOk parseOk : Bool) (p : PubsubPayload)
    (outcome : ProcOutcome) : Nat :=
  if !formatOk then 400
  else if !parseOk then 500
  else
    match truthyOpt p.jobId, truthyOpt p.stage with
    | some _, some st =>
        if st = "demographics" ∨ st = "7_organicSearch" then
          match outcome with
          | .ok => 204
          | .exn => 500
        else 204
    | _, _ => 400

/-- HTTP response code of the second Pub/Sub endpoint in src/worker.js
(lines 621-659): every path returns 204, including the malformed-envelope
and parse-failure branches and the catch-all around the processor call. -/
def pubsubDispatchV2 (formatOk parseOk : Bool) (p : PubsubPayload)
    (outcome : ProcOutcome) : Nat :=
  if !formatOk then 204
  else if !parseOk then 204
  else
    match truthyOpt p.jobId with
    | none => 204
    | some _ =>
        match outcome with
        | .ok => 204
        | .exn => 204

/-- Acknowledgement from the Message Channel's point of view: any 2xx
response suppresses redelivery. -/
def isAck (n : Nat) : Bool :=
  200 ≤ n && n < 300

/-! ## Claim C4: the completeness classifier -/

/-- Claim C4: for every assignment of number-or-null values to the fixed
demographics field set, the classifier returns failed when zero fields are
non-null, completed when all seven are non-null, and partial for every
proper non-empty subset of non-null fields. -/
theorem classifyMetrics_subset_cases (p : ParsedMetrics) :
    (countSome p = 0 → classifyMetrics p = "failed") ∧
    (countSome p = 7 → classifyMetrics p = "completed") ∧
    (0 < countSome p → countSome p < 7 → classifyMetrics p = "partial") := by
  obtain ⟨a, b, c, d, e, f, g⟩ := p
  cases a <;> cases b <;> cases c <;> cases d <;> cases e <;> cases f <;> cases g <;>
    simp [classifyMetrics, countSome, metricsList]

def partialMetricsExample : ParsedMetrics :=
  ⟨some 1000, some 35, some 400, some 50000, some 60000, none, none⟩

/-- Witness for C4 at a concrete five-of-seven assignment. -/
theorem classifyMetrics_subset_cases_witness :
    0 < countSome partialMetricsExample ∧ countSome partialMetricsExample < 7 ∧
    classifyMetrics partialMetricsExample = "partial" :=
  ⟨by decide, by decide,
   (classifyMetrics_subset_cases partialMetricsExample).2.2 (by decide) (by decide)⟩

/-! ## Claim C2: any failed segment makes the overall status failed -/

/-- Claim C2: both embedded aggregators map any segment-status assignment
containing a failed segment to overall failed, regardless of the other
segments (jobHelpers.js updateOverallStatus and the two-segment
index.js updateOverallStatus). -/
theorem anyFailed_overall_failed :
    (∀ demo org paid : Option String,
      demo = some "failed" ∨ org = some "failed" ∨ paid = some "failed" →
      jobHelpersComputeOverall demo org paid = "failed") ∧
    (∀ demo paid : Option String,
      demo = some "failed" ∨ paid = some "failed" →
      indexComputeOverall demo paid = "failed") := by
  constructor
  · intro demo org paid h
    rcases h with h | h | h <;> subst h <;>
      simp [jobHelpersComputeOverall, orQueued]
  · intro demo paid h
    rcases h with h | h <;> subst h <;> simp [indexComputeOverall]

/-- Witness for C2 at concrete inputs. -/
theorem anyFailed_overall_failed_witness :
    jobHelpersComputeOverall (some "failed") (some "completed") none = "failed" ∧
    indexComputeOverall none (some "failed") = "failed" :=
  ⟨anyFailed_overall_failed.1 _ _ _ (Or.inl rfl),
   anyFailed_overall_failed.2 _ _ (Or.inr rfl)⟩

/-! ## Claim C3: a partial segment and the overall status -/

/-- Counterexample for C3: with segment statuses partial, completed,
completed (no failed, no pending, no queued segment), both cited
aggregators compute overall pending, not partial — neither has a partial
branch. -/
theorem partial_segment_gives_pending_cex :
    jobHelpersComputeOverall (some "partial") (some "completed") (some "completed") =
      "pending" ∧
    statusJsComputeMain ["partial", "completed", "completed"] = "pending" ∧
    "pending" ≠ "partial" := by
  refine ⟨by decide, by decide, by decide⟩

/-- Amended C3: for every segment-status map with no failed, no pending and
no queued segment and at least one partial segment, the aggregators fall
through to the mixed-state fallback and compute overall pending (there is
no partial rule in any aggregator version). -/
theorem partial_segment_gives_pending :
    (∀ demo org paid : Option String,
      (orQueued demo = "partial" ∨ orQueued org = "partial" ∨ orQueued paid = "partial") →
      orQueued demo ≠ "failed" → orQueued org ≠ "failed" → orQueued paid ≠ "failed" →
      orQueued demo ≠ "pending" → orQueued org ≠ "pending" → orQueued paid ≠ "pending" →
      orQueued demo ≠ "queued" → orQueued org ≠ "queued" → orQueued paid ≠ "queued" →
      jobHelpersComputeOverall demo org paid = "pending") ∧
    (∀ l : List String,
      "partial" ∈ l → "failed" ∉ l → "pending" ∉ l → "queued" ∉ l →
      statusJsComputeMain l = "pending") := by
  constructor
  · intro demo org paid hp hf1 hf2 hf3 hp1 hp2 hp3 hq1 hq2 hq3
    unfold jobHelpersComputeOverall
    rw [if_neg (by tauto), if_neg (by tauto), if_neg (by tauto), if_neg ?_]
    rcases hp with h | h | h <;> intro hc
    · rw [h] at hc; exact absurd hc.1 (by decide)
    · rw [h] at hc; exact absurd hc.2.1 (by decide)
    · rw [h] at hc; exact absurd hc.2.2 (by decide)
  · intro l hmem hf hp hq
    unfold statusJsComputeMain
    rw [if_neg ?_, if_neg ?_, if_neg ?_, if_neg ?_]
    · intro hall
      simp only [List.any_eq_true, decide_eq_true_eq] at hall
      obtain ⟨x, hx, hx2⟩ := hall
      exact hp (hx2 ▸ hx)
    · intro hall
      simp only [List.all_eq_true, decide_eq_true_eq] at hall
      exact absurd (hall _ hmem) (by decide)
    · intro hall
      simp only [List.any_eq_true, decide_eq_true_eq] at hall
      obtain ⟨x, hx, hx2⟩ := hall
      exact hf (hx2 ▸ hx)
    · intro hall
      simp only [List.all_eq_true, decide_eq_true_eq] at hall
      exact absurd (hall _ hmem) (by decide)

/-- Witness for the amended C3 at concrete inputs. -/
theorem partial_segment_gives_pending_witness :
    jobHelpersComputeOverall (some "partial") (some "completed") (some "no_data") = "pending" ∧
    statusJsComputeMain ["completed", "partial"] = "pending" :=
  ⟨partial_segment_gives_pending.1 _ _ _ (Or.inl (by decide)) (by decide) (by decide)
     (by decide) (by decide) (by decide) (by decide) (by decide) (by decide) (by decide),
   partial_segment_gives_pending.2 _ (by decide) (by decide) (by decide) (by decide)⟩

/-! ## Claim C5: per-field numeric coercion -/

/-- Counterexample for C5: a whitespace-only string and the boolean false
are non-numeric values, yet toNumberOrNull maps each of them to 0, not to
null (JS Number coerces both to 0). -/
theorem toNumberOrNull_zero_cex :
    isNumericValue (JSValue.str JSString.wsOnly) = false ∧
    toNumberOrNull (JSValue.str JSString.wsOnly) = some 0 ∧
    isNumericValue (JSValue.bool false) = false ∧
    toNumberOrNull (JSValue.bool false) = some 0 := by
  refine ⟨rfl, by decide, rfl, by decide⟩

/-- Amended C5: toNumberOrNull maps null, undefined, the empty string, and
every value whose JS numeric coercion is NaN (non-numeric, non-whitespace
strings) to null, and returns a numeric value as that number; but values
JS coerces to a number are passed through, so a whitespace-only string
yields 0 and a boolean yields 0 or 1 rather than null. -/
theorem toNumberOrNull_characterization :
    toNumberOrNull JSValue.null = none ∧
    toNumberOrNull JSValue.undefined = none ∧
    toNumberOrNull (JSValue.str JSString.empty) = none ∧
    toNumberOrNull (JSValue.str JSString.other) = none ∧
    (∀ q : ℚ, toNumberOrNull (JSValue.num q) = some q) ∧
    (∀ q : ℚ, toNumberOrNull (JSValue.str (JSString.numeric q)) = some q) ∧
    toNumberOrNull (JSValue.str JSString.wsOnly) = some 0 ∧
    (∀ b : Bool, toNumberOrNull (JSValue.bool b) = some (if b then 1 else 0)) := by
  refine ⟨rfl, rfl, rfl, rfl, fun q => ?_, fun q => ?_, rfl, fun b => ?_⟩
  · simp [toNumberOrNull, jsToNumber]
  · simp [toNumberOrNull, jsToNumber, jsStringToNumber]
  · cases b <;> rfl

/-! ## Claim C6: aggregator write discipline -/

def convergedJobRow : JobRow :=
  ⟨none, none, none, some "completed", some "completed", some "completed",
   some "completed"⟩

/-- Store holding one fully converged job: every segment completed and the
stored overall status already completed. -/
def convergedState : WorldState :=
  { jobs := fun k => if k = "J1" then some convergedJobRow else none,
    demoSource := fun _ => none,
    demoResults := fun _ => none,
    orgResults := fun _ => none }

/-- Counterexample for C6: on the converged job, the status.js aggregator
recomputeAndUpdateMainStatus still issues one UPDATE of the overall-status
column even though the computed value equals the stored one. -/
theorem recompute_writes_when_unchanged_cex :
    (convergedState.jobs "J1").map
        (fun j => [j.demographicsStatus, j.organicSearchStatus, j.paidAdsStatus]) =
      some [some "completed", some "completed", some "completed"] ∧
    (convergedState.jobs "J1").map (fun j => j.status) = some (some "completed") ∧
    (recomputeAndUpdateMainStatus convergedState "J1").2 = 1 := by
  refine ⟨by decide, by decide, by decide⟩

/-- Amended C6: the jobHelpers.js aggregator writes the overall status only
when the computed value differs from the stored one (zero writes when they
agree), while the status.js aggregator issues one UPDATE on every run with
at least one truthy segment — even when the computed value equals the
stored one, in which case the write leaves the store unchanged. -/
theorem aggregator_write_discipline :
    (∀ (s : WorldState) (jid : String) (j : JobRow),
      s.jobs jid = some j →
      j.status = some (jobHelpersComputeOverall j.demographicsStatus
        j.organicSearchStatus j.paidAdsStatus) →
      jobHelpersUpdateOverallStatus s jid = (s, 0)) ∧
    (∀ (s : WorldState) (jid : String) (j : JobRow),
      s.jobs jid = some j →
      truthyList [j.demographicsStatus, j.organicSearchStatus, j.paidAdsStatus] ≠ [] →
      (recomputeAndUpdateMainStatus s jid).2 = 1) ∧
    (∀ (s : WorldState) (jid : String) (j : JobRow),
      s.jobs jid = some j →
      j.status = some (statusJsComputeMain
        (truthyList [j.demographicsStatus, j.organicSearchStatus, j.paidAdsStatus])) →
      (recomputeAndUpdateMainStatus s jid).1 = s) := by
  refine ⟨?_, ?_, ?_⟩
  · intro s jid j hload hsame
    unfold jobHelpersUpdateOverallStatus
    rw [hload]
    simp [← hsame]
  · intro s jid j hload hne
    unfold recomputeAndUpdateMainStatus
    rw [hload]
    simp [hne]
  · intro s jid j hload hsame
    unfold recomputeAndUpdateMainStatus
    rw [hload]
    by_cases hseg :
        truthyList [j.demographicsStatus, j.organicSearchStatus, j.paidAdsStatus] = []
    · simp [hseg]
    · have hrow : { j with status := some (statusJsComputeMain
          (truthyList [j.demographicsStatus, j.organicSearchStatus, j.paidAdsStatus])) } = j := by
        cases j
        simp_all
      simp only [hseg, if_neg]
      rw [hrow, updMap_self s.jobs jid (some j) hload]
      simp
  
/-- Witness for the amended C6 at the converged store. -/
theorem aggregator_write_discipline_witness :
    convergedState.jobs "J1" = some convergedJobRow ∧
    jobHelpersUpdateOverallStatus convergedState "J1" = (convergedState, 0) ∧
    (recomputeAndUpdateMainStatus convergedState "J1").2 = 1 ∧
    (recomputeAndUpdateMainStatus convergedState "J1").1 = convergedState :=
  ⟨rfl,
   aggregator_write_discipline.1 convergedState "J1" convergedJobRow rfl (by decide),
   aggregator_write_discipline.2.1 convergedState "J1" convergedJobRow rfl (by decide),
   aggregator_write_discipline.2.2 convergedState "J1" convergedJobRow rfl (by decide)⟩

/-! ## Claim C7: direct overall-status writes by the processor -/

def pendingDraft2Row : Draft2JobRow :=
  ⟨some "pending", some "pending", some "pending"⟩

/-- Counterexample for C7: the worker draft 2 processor helper writes the
overall-status column directly, and on a no_data update it stores
needs_review — a value outside the Status Aggregator's codomain. -/
theorem safeUpdate_stores_needs_review_cex :
    (safeUpdateJobDemographicsStatus pendingDraft2Row "no_data").status =
      some "needs_review" ∧
    "needs_review" ∉ aggregatorCodomain := by
  refine ⟨by decide, by decide⟩

/-- Amended C7: safeUpdateJobDemographicsStatus sets the overall-status
column directly in the same UPDATE as the segment status; every no_data or
no_location update stores needs_review, and no run of either aggregator
ever computes needs_review, so the stored overall status is not a pure
function of the segment statuses. -/
theorem safeUpdate_writes_outside_codomain :
    (∀ j : Draft2JobRow,
      (safeUpdateJobDemographicsStatus j "no_data").status = some "needs_review" ∧
      (safeUpdateJobDemographicsStatus j "no_location").status = some "needs_review") ∧
    (∀ demo org paid : Option String,
      jobHelpersComputeOverall demo org paid ≠ "needs_review") ∧
    (∀ l : List String, statusJsComputeMain l ≠ "needs_review") := by
  refine ⟨?_, ?_, ?_⟩
  · intro j
    constructor <;> simp [safeUpdateJobDemographicsStatus]
  · intro demo org paid h
    have hmem := jobHelpersComputeOverall_mem_codomain demo org paid
    rw [h] at hmem
    simp [aggregatorCodomain] at hmem
  · intro l h
    have hmem := statusJsComputeMain_mem_codomain l
    rw [h] at hmem
    simp [aggregatorCodomain] at hmem

/-! ## Claim C1: the idempotency guard of the synchronous processor -/

def fullMetricsExample : ParsedMetrics :=
  ⟨some 1000, some 35, some 400, some 50000, some 60000, some 49, some 51⟩

def completedGuardJobRow : JobRow :=
  ⟨some "B", some "Springfield", none, some "completed", some "completed",
   some "completed", some "pending"⟩

/-- Store with one job whose demographics segment is completed with a
consistent SegmentResult, but whose stored overall status has drifted to
pending although every segment is completed. -/
def driftState : WorldState :=
  { jobs := fun k => if k = "J1" then some completedGuardJobRow else none,
    demoSource := fun _ => none,
    demoResults := fun k =>
      if k = "J1" then some ⟨some "B", fullMetricsExample, "completed"⟩ else none,
    orgResults := fun _ => none }

/-- Counterexample for C1: on the drifted store the guard fires and the
re-invocation returns the store unchanged — overall status stays pending —
whereas re-running the aggregator (maybeMarkJobCompleted) would repair it
to completed.  The processor therefore does not proceed to re-running the
Status Aggregator. -/
theorem guard_skips_aggregator_cex :
    (driftState.jobs "J1").map (fun j => truthyOpt j.demographicsStatus) =
      some (some "completed") ∧
    (driftState.demoResults "J1").map (fun r => r.status) = some "completed" ∧
    (driftState.jobs "J1").map (fun j => j.status) = some (some "pending") ∧
    processJobDemographics driftState "J1" none = driftState ∧
    ((maybeMarkJobCompleted driftState "J1").jobs "J1").map (fun j => j.status) =
      some (some "completed") ∧
    processJobDemographics driftState "J1" none ≠ maybeMarkJobCompleted driftState "J1" := by
  refine ⟨by decide, by decide, by decide, rfl, by decide, fun h => ?_⟩
  exact absurd (congrArg (fun s => (s.jobs "J1").map (fun j => j.status)) h) (by decide)

/-- Amended C1: when the stored demographics status is completed, the
re-invoked processor performs no write at all — no SegmentResult write, no
segment-status write, no overall-status change — and returns without
re-running the Status Aggregator; terminal statuses other than completed
do not trigger the guard. -/
theorem completed_guard_skips_all_writes (s : WorldState) (jid : String)
    (job : JobRow) (loc : Option String) (hload : s.jobs jid = some job)
    (hguard : truthyOpt job.demographicsStatus = some "completed") :
    processJobDemographics s jid loc = s := by
  unfold processJobDemographics processDemographicsStage
  simp only [hload]
  rw [if_pos hguard]

/-- Witness for the amended C1 at the drifted store. -/
theorem completed_guard_skips_all_writes_witness :
    driftState.jobs "J1" = some completedGuardJobRow ∧
    truthyOpt completedGuardJobRow.demographicsStatus = some "completed" ∧
    processJobDemographics driftState "J1" none = driftState :=
  ⟨rfl, rfl,
   completed_guard_skips_all_writes driftState "J1" completedGuardJobRow none rfl rfl⟩

/-! ## Claims C8 and C9: the organic-search callback -/

theorem updateOrganicRow_jobs (s : WorldState) (jid : String) (it : OrganicItem)
    (st : String) : (updateOrganicRow s jid it st).jobs = s.jobs := by
  unfold updateOrganicRow
  split <;> rfl

theorem recompute_preserves_organic (s : WorldState) (jid : String) :
    ((recomputeAndUpdateMainStatus s jid).1.jobs jid).map
        (fun j => j.organicSearchStatus) =
      (s.jobs jid).map (fun j => j.organicSearchStatus) := by
  rcases h : s.jobs jid with _ | j
  · simp [recomputeAndUpdateMainStatus, h]
  · by_cases hseg :
        truthyList [j.demographicsStatus, j.organicSearchStatus, j.paidAdsStatus] = []
    · simp [recomputeAndUpdateMainStatus, h, hseg]
    · simp [recomputeAndUpdateMainStatus, h, hseg, updMap]

theorem statusJsMark_sets_organic (s : WorldState) (jid st : String) (j : JobRow)
    (h : s.jobs jid = some j) :
    ((statusJsMarkSegmentStatus s jid "7_organicSearch_Status" st).jobs jid).map
        (fun r => r.organicSearchStatus) = some (some st) := by
  unfold statusJsMarkSegmentStatus
  rw [if_pos (by simp)]
  rw [recompute_preserves_organic]
  simp [h, updMap]

theorem statusJsMark_absent (s : WorldState) (jid col st : String)
    (hmiss : s.jobs jid = none) :
    statusJsMarkSegmentStatus s jid col st = s := by
  unfold statusJsMarkSegmentStatus
  split
  · simp [hmiss, recomputeAndUpdateMainStatus]
  · rfl

def partialRankItem : OrganicItem :=
  ⟨some "J1", some "Acme", none, none, none, none, none, none, none, none, none,
   none, none, none, none, none, none, none, none, none, none⟩

def callbackJobRow : JobRow :=
  ⟨none, none, none, some "completed", some "completed", some "pending",
   some "pending"⟩

/-- Store with one job awaiting its organic-search callback, holding the
Phase A placeholder SegmentResult row. -/
def callbackState : WorldState :=
  { jobs := fun k => if k = "J1" then some callbackJobRow else none,
    demoSource := fun _ => none,
    demoResults := fun _ => none,
    orgResults := fun k => if k = "J1" then some ⟨[], "pending"⟩ else none }

/-- Counterexample for C8: a callback payload with exactly one non-null
rank field is a proper non-empty subset, which the three-way
classification of the synchronous processor maps to partial; the callback
instead writes the segment status failed (its classification is two-way:
completed only when every one of the twenty fields is filled). -/
theorem callback_two_way_classification_cex :
    allRankFieldsFilled partialRankItem = false ∧
    specCallbackClassification (rankFields partialRankItem) = "partial" ∧
    ((handleOrganicItem callbackState partialRankItem).jobs "J1").map
        (fun r => r.organicSearchStatus) = some (some "failed") ∧
    "failed" ≠ "partial" := by
  refine ⟨by decide, by decide, by decide, by decide⟩

/-- Amended C8: for every callback item whose jobId matches an existing
job, the callback writes the segment status to exactly its own two-way
classification — completed when all twenty rank fields are non-empty after
the string coercion, failed otherwise; partial is never produced. -/
theorem callback_writes_classification (s : WorldState) (it : OrganicItem)
    (jid : String) (j : JobRow) (hjid : truthyOpt it.jobId = some jid)
    (hjob : s.jobs jid = some j) :
    ((handleOrganicItem s it).jobs jid).map (fun r => r.organicSearchStatus) =
      some (some (if allRankFieldsFilled it then "completed" else "failed")) := by
  unfold handleOrganicItem
  simp only [hjid, hjob]
  have hjobs1 : (updateOrganicRow s jid it
      (if allRankFieldsFilled it then "completed" else "failed")).jobs jid = some j := by
    rw [updateOrganicRow_jobs]
    exact hjob
  exact statusJsMark_sets_organic _ _ _ _ hjobs1

/-- Witness for the amended C8. -/
theorem callback_writes_classification_witness :
    truthyOpt partialRankItem.jobId = some "J1" ∧
    callbackState.jobs "J1" = some callbackJobRow ∧
    ((handleOrganicItem callbackState partialRankItem).jobs "J1").map
        (fun r => r.organicSearchStatus) =
      some (some (if allRankFieldsFilled partialRankItem then "completed" else "failed")) :=
  ⟨rfl, rfl,
   callback_writes_classification callbackState partialRankItem "J1" callbackJobRow rfl rfl⟩

/-- Claim C9: a callback whose jobId matches no job changes nothing — the
attempted failed-marking UPDATE matches no row, no SegmentResult row is
created, and the loop continues with the remaining items. -/
theorem orphan_callback_is_noop (s : WorldState) (it : OrganicItem) (jid : String)
    (hjid : truthyOpt it.jobId = some jid) (hmiss : s.jobs jid = none) :
    handleOrganicItem s it = s ∧
    ∀ rest : List OrganicItem,
      processOrganicItems s (it :: rest) = processOrganicItems s rest := by
  have h1 : handleOrganicItem s it = s := by
    unfold handleOrganicItem
    simp only [hjid, hmiss]
    exact statusJsMark_absent s jid "7_organicSearch_Status" "failed" hmiss
  refine ⟨h1, fun rest => ?_⟩
  show processOrganicItems (handleOrganicItem s it) rest = processOrganicItems s rest
  rw [h1]

def emptyWorld : WorldState :=
  ⟨fun _ => none, fun _ => none, fun _ => none, fun _ => none⟩

def orphanItem : OrganicItem :=
  ⟨some "ghost", some "A", some "a", some "B", some "b", some "C", some "c",
   some "D", some "d", some "E", some "e", some "F", some "f", some "G", some "g",
   some "H", some "h", some "I", some "i", some "J", some "j"⟩

/-- Witness for C9 on an empty store. -/
theorem orphan_callback_is_noop_witness :
    truthyOpt orphanItem.jobId = some "ghost" ∧
    emptyWorld.jobs "ghost" = none ∧
    handleOrganicItem emptyWorld orphanItem = emptyWorld ∧
    processOrganicItems emptyWorld [orphanItem] = processOrganicItems emptyWorld [] :=
  ⟨rfl, rfl,
   (orphan_callback_is_noop emptyWorld orphanItem "ghost" rfl rfl).1,
   (orphan_callback_is_noop emptyWorld orphanItem "ghost" rfl rfl).2 []⟩

/-! ## Claim C10: dispatcher acknowledgement -/

/-- Counterexample for C10: in the first worker.js dispatcher a processor
exception reaches the catch block, which responds 500 — not an
acknowledgement, so the Message Channel redelivers. -/
theorem dispatcher_ack_cex :
    pubsubDispatchV1 true true ⟨some "J1", some "demographics"⟩ ProcOutcome.exn = 500 ∧
    isAck 500 = false := by
  refine ⟨by decide, by decide⟩

/-- Amended C10: the second worker.js dispatcher acknowledges every
envelope regardless of the processor's outcome; the first dispatcher
acknowledges unknown stages as a logged no-op (204) but responds 500 —
not an acknowledgement — when the routed processor raises. -/
theorem dispatcher_ack_behaviour :
    (∀ (formatOk parseOk : Bool) (p : PubsubPayload) (oc : ProcOutcome),
      isAck (pubsubDispatchV2 formatOk parseOk p oc) = true) ∧
    (∀ (p : PubsubPayload) (oc : ProcOutcome) (st : String),
      truthyOpt p.stage = some st → truthyOpt p.jobId ≠ none →
      st ≠ "demographics" → st ≠ "7_organicSearch" →
      pubsubDispatchV1 true true p oc = 204) ∧
    (∀ (p : PubsubPayload) (st : String),
      truthyOpt p.stage = some st → truthyOpt p.jobId ≠ none →
      st = "demographics" ∨ st = "7_organicSearch" →
      pubsubDispatchV1 true true p ProcOutcome.exn = 500) := by
  refine ⟨?_, ?_, ?_⟩
  · intro formatOk parseOk p oc
    cases formatOk <;> cases parseOk <;> rcases h : truthyOpt p.jobId with _ | x <;>
      cases oc <;> simp [pubsubDispatchV2, h, isAck]
  · intro p oc st hst hjid h1 h2
    obtain ⟨x, hx⟩ := Option.ne_none_iff_exists'.mp hjid
    unfold pubsubDispatchV1
    simp [hx, hst, h1, h2]
  · intro p st hst hjid hk
    obtain ⟨x, hx⟩ := Option.ne_none_iff_exists'.mp hjid
    unfold pubsubDispatchV1
    rcases hk with hk | hk <;> simp [hx, hst, hk]

/-- Witness for the amended C10 at concrete envelopes. -/
theorem dispatcher_ack_behaviour_witness :
    isAck (pubsubDispatchV2 true true ⟨some "J1", some "demographics"⟩ ProcOutcome.exn) = true ∧
    pubsubDispatchV1 true true ⟨some "J1", some "paidAds"⟩ ProcOutcome.exn = 204 ∧
    pubsubDispatchV1 true true ⟨some "J1", some "7_organicSearch"⟩ ProcOutcome.exn = 500 :=
  ⟨dispatcher_ack_behaviour.1 true true ⟨some "J1", some "demographics"⟩ ProcOutcome.exn,
   dispatcher_ack_behaviour.2.1 ⟨some "J1", some "paidAds"⟩ ProcOutcome.exn "paidAds"
     rfl (by decide) (by decide) (by decide),
   dispatcher_ack_behaviour.2.2 ⟨some "J1", some "7_organicSearch"⟩ "7_organicSearch"
     rfl (by decide) (Or.inr rfl)⟩
